import Mathlib

/-!
Verification development for the NFL grading engine.

The definitions below are shallow embeddings of the grading functions of
the repository (coaching grade adjustment, efficiency, roster tiers,
letter-grade tables, line-unit grading, defensive event aggregation, and
JSON data cleaning).  Machine floats of the source are modelled as exact
rationals, missing values as `Option`, and pandas row iteration as list
traversal.  Theorems after the definitions settle the specification
claims against these embeddings.
-/

namespace NFLGrading

/-! ### Coaching: roster adjustment (functions/coaching/grading.py) -/

/-- Embeds `calculate_adjustment_factor` (coaching/grading.py lines
321-336): a multiplicative factor on coaching grades determined by the
roster average grade and a depth score.  `league_avg` and `grade_diff`
of the source are unused there and omitted. -/
def calculate_adjustment_factor (roster_grade depth_score : ℚ) : ℚ :=
  let depth_factor := min (depth_score / 20) 1
  if roster_grade ≥ 85 then 85/100 + (1/10) * depth_factor
  else if roster_grade ≥ 75 then 92/100 + (5/100) * depth_factor
  else if roster_grade ≥ 65 then 1
  else if roster_grade ≥ 55 then 108/100 + (1/10) * (1 - depth_factor)
  else 115/100 + (15/100) * (1 - depth_factor)

/-- Embeds the final bound on adjusted grade categories
(coaching/grading.py line 388): `min(100, max(40, grade))`. -/
def clamp_overall_grade (g : ℚ) : ℚ := min 100 (max 40 g)

/-- Embeds the per-player depth points of `_calculate_depth_score`
(coaching/grading.py lines 246-256). -/
def depth_points (grade : ℚ) : ℚ :=
  if grade ≥ 90 then 4
  else if grade ≥ 80 then 3
  else if grade ≥ 70 then 2
  else if grade ≥ 60 then 1
  else 0

/-- Embeds `_calculate_depth_score` (coaching/grading.py lines 238-259):
sum of depth points over the team players, normalised by roster size and
scaled by 10. -/
def calculate_depth_score (grades : List ℚ) : ℚ :=
  if grades.length = 0 then 0
  else ((grades.map depth_points).sum / grades.length) * 10

/-! ### Coaching: efficiency (functions/coaching/grading.py lines 1014-1017) -/

/-- Embeds `expected_performance = roster_quality` of
`get_coaching_efficiency_leaders` (coaching/grading.py line 1016). -/
def expected_performance (roster_quality : ℚ) : ℚ := roster_quality

/-- Embeds `efficiency = adjusted_overall - expected_performance` of
`get_coaching_efficiency_leaders` (coaching/grading.py line 1017). -/
def coaching_efficiency (adjusted_overall roster_quality : ℚ) : ℚ :=
  adjusted_overall - expected_performance roster_quality

/-- Modelled from the spec (for comparison only): efficiency as the spec
words it, base minus `expected = 50 + (roster_avg - 65) * 0.5`. -/
def efficiency_spec (base roster_avg : ℚ) : ℚ :=
  base - (50 + (roster_avg - 65) * (1/2))

/-! ### Coaching: roster tier (functions/coaching/grading.py lines 392-403) -/

/-- Embeds `_get_roster_tier` (coaching/grading.py lines 392-403). -/
def get_roster_tier (avg_grade : ℚ) : String :=
  if avg_grade ≥ 80 then "Elite"
  else if avg_grade ≥ 75 then "Very Good"
  else if avg_grade ≥ 70 then "Average"
  else if avg_grade ≥ 65 then "Below Average"
  else "Poor"

/-- Modelled from the spec (for comparison only): the tier breakpoints as
the spec words them. -/
def roster_tier_spec (avg_grade : ℚ) : String :=
  if avg_grade ≥ 72 then "Elite"
  else if avg_grade ≥ 68 then "Good"
  else if avg_grade ≥ 64 then "Average"
  else if avg_grade ≥ 60 then "Below Average"
  else "Poor"

/-! ### Theorems for C1, C2, C6 -/

/-- C1: whenever a roster-adjusted coaching grade is produced, the
roster adjustment factor lies in [-15, 15] (the code's multiplicative
factor always lies in [0.85, 1.30], hence inside the claimed interval)
and the roster-adjusted overall grade lies in [20, 100] (the code clamps
it to [40, 100], again inside the claimed interval).  The depth score
fed to the factor is nonnegative, as produced by
`_calculate_depth_score`. -/
theorem adjustment_factor_and_adjusted_grade_in_claimed_bounds
    (roster_grade depth_score g : ℚ) (hd : 0 ≤ depth_score) :
    (-15 ≤ calculate_adjustment_factor roster_grade depth_score ∧
      calculate_adjustment_factor roster_grade depth_score ≤ 15) ∧
    (20 ≤ clamp_overall_grade g ∧ clamp_overall_grade g ≤ 100) := by
  have hdf0 : (0:ℚ) ≤ min (depth_score / 20) 1 :=
    le_min (by positivity) (by norm_num)
  have hdf1 : min (depth_score / 20) 1 ≤ 1 := min_le_right _ _
  constructor
  · unfold calculate_adjustment_factor
    split_ifs <;> constructor <;> nlinarith [hdf0, hdf1]
  · unfold clamp_overall_grade
    constructor
    · exact le_min (by norm_num) (le_trans (by norm_num) (le_max_left 40 g))
    · exact min_le_left _ _

/-- Witness for C1 at roster grade 70, depth score 10, raw grade 50. -/
theorem adjustment_factor_bounds_witness :
    (0:ℚ) ≤ 10 ∧
    ((-15 ≤ calculate_adjustment_factor 70 10 ∧
        calculate_adjustment_factor 70 10 ≤ 15) ∧
      (20 ≤ clamp_overall_grade 50 ∧ clamp_overall_grade 50 ≤ 100)) :=
  ⟨by norm_num,
    adjustment_factor_and_adjusted_grade_in_claimed_bounds 70 10 50 (by norm_num)⟩

/-- C2 counterexample: for a coach whose roster average grade is 65 the
multiplicative adjustment is 1, so base and adjusted overall coincide;
with base = adjusted = 70 the code computes efficiency
70 - 65 = 5, while the claim demands base - 50 = 20. -/
theorem coaching_efficiency_counterexample :
    coaching_efficiency 70 65 = 5 ∧ efficiency_spec 70 65 = 20 ∧
      coaching_efficiency 70 65 ≠ efficiency_spec 70 65 := by
  refine ⟨?_, ?_, ?_⟩ <;>
    simp [coaching_efficiency, expected_performance, efficiency_spec] <;> norm_num

/-- C2 amended: the efficiency metric equals the adjusted overall grade
minus the roster average grade itself (the code's expected performance
is the roster quality, not 50 + (roster_avg - 65)/2); it differs from
the spec's formula, instantiated with the adjusted grade as base, by
exactly 35/2 - roster_avg/2. -/
theorem coaching_efficiency_formula (adjusted_overall roster_avg : ℚ) :
    coaching_efficiency adjusted_overall roster_avg =
        adjusted_overall - roster_avg ∧
      coaching_efficiency adjusted_overall roster_avg -
          efficiency_spec adjusted_overall roster_avg = 35/2 - roster_avg/2 := by
  constructor <;>
    simp [coaching_efficiency, expected_performance, efficiency_spec] <;> ring

/-- C6 counterexample: a team-season with average key-contributor grade
72 is classified "Average" by the code, while the claimed breakpoints
would classify it "Elite". -/
theorem roster_tier_counterexample :
    get_roster_tier 72 = "Average" ∧ roster_tier_spec 72 = "Elite" ∧
      get_roster_tier 72 ≠ roster_tier_spec 72 := by
  have h1 : get_roster_tier 72 = "Average" := by norm_num [get_roster_tier]
  have h2 : roster_tier_spec 72 = "Elite" := by norm_num [roster_tier_spec]
  refine ⟨h1, h2, ?_⟩
  rw [h1, h2]
  decide

/-- C6 amended: the roster quality tier is determined from the average
key-contributor grade by the fixed breakpoints ≥ 80 Elite, ≥ 75 Very
Good, ≥ 70 Average, ≥ 65 Below Average, and else Poor. -/
theorem roster_tier_breakpoints (avg : ℚ) :
    (get_roster_tier avg = "Elite" ↔ 80 ≤ avg) ∧
    (get_roster_tier avg = "Very Good" ↔ 75 ≤ avg ∧ avg < 80) ∧
    (get_roster_tier avg = "Average" ↔ 70 ≤ avg ∧ avg < 75) ∧
    (get_roster_tier avg = "Below Average" ↔ 65 ≤ avg ∧ avg < 70) ∧
    (get_roster_tier avg = "Poor" ↔ avg < 65) := by
  unfold get_roster_tier
  split_ifs with h1 h2 h3 h4 <;>
    refine ⟨?_, ?_, ?_, ?_, ?_⟩ <;>
    simp_all <;>
    intros <;>
    first
      | rfl
      | linarith

/-! ### Letter-grade tables

The repository carries two boundary tables: the interval table
`grade_scale` of `EnhancedNFLPlayerGrader.__init__`
(players/grading.py lines 40-46), consumed by `_numeric_to_letter_grade`
(lines 1291-1296), and the threshold chain `get_letter_grade` of
`NFLCoachingAnalytics` (coach_grading.py lines 580-607). -/

/-- The 13 letter buckets. -/
def letter_grades : List String :=
  ["A+", "A", "A-", "B+", "B", "B-", "C+", "C", "C-", "D+", "D", "D-", "F"]

/-- Embeds the `grade_scale` interval table (players/grading.py lines
40-46); entries are (letter, min score, max score), with the decimal
bounds 94.9 etc. as exact rationals. -/
def grade_scale : List (String × ℚ × ℚ) :=
  [("A+", 95, 100), ("A", 90, 949/10), ("A-", 85, 899/10),
   ("B+", 80, 849/10), ("B", 75, 799/10), ("B-", 70, 749/10),
   ("C+", 65, 699/10), ("C", 55, 649/10), ("C-", 50, 549/10),
   ("D+", 45, 499/10), ("D", 40, 449/10), ("D-", 35, 399/10),
   ("F", 0, 349/10)]

/-- Membership test `min_score <= score <= max_score` used by
`_numeric_to_letter_grade` (players/grading.py line 1294). -/
def in_bucket (b : String × ℚ × ℚ) (score : ℚ) : Bool :=
  decide (b.2.1 ≤ score) && decide (score ≤ b.2.2)

/-- Embeds `_numeric_to_letter_grade` (players/grading.py lines
1291-1296): first matching bucket of `grade_scale`, falling back to
"F" when no bucket matches. -/
def numeric_to_letter_grade (score : ℚ) : String :=
  match grade_scale.find? (fun b => in_bucket b score) with
  | some b => b.1
  | none => "F"

/-- Number of `grade_scale` buckets containing a score. -/
def bucket_count (score : ℚ) : ℕ :=
  (grade_scale.filter (fun b => in_bucket b score)).length

/-- Embeds `get_letter_grade` (coach_grading.py lines 580-607), the
strict threshold chain with A+ at 97. -/
def get_letter_grade (numerical_grade : ℚ) : String :=
  if numerical_grade ≥ 97 then "A+"
  else if numerical_grade ≥ 93 then "A"
  else if numerical_grade ≥ 90 then "A-"
  else if numerical_grade ≥ 87 then "B+"
  else if numerical_grade ≥ 83 then "B"
  else if numerical_grade ≥ 80 then "B-"
  else if numerical_grade ≥ 77 then "C+"
  else if numerical_grade ≥ 73 then "C"
  else if numerical_grade ≥ 70 then "C-"
  else if numerical_grade ≥ 67 then "D+"
  else if numerical_grade ≥ 63 then "D"
  else if numerical_grade ≥ 60 then "D-"
  else "F"

/-- A filtered list keeps at most one element when the kept predicate
cannot hold of two distinct positions. -/
theorem length_filter_le_one_of_pairwise {α : Type} (l : List α) (p : α → Bool)
    (h : l.Pairwise (fun a b => ¬(p a = true ∧ p b = true))) :
    (l.filter p).length ≤ 1 := by
  induction l with
  | nil => simp
  | cons hd tl ih =>
    rcases List.pairwise_cons.mp h with ⟨hhd, htl⟩
    by_cases hp : p hd
    · have hnil : tl.filter p = [] := by
        rw [List.filter_eq_nil_iff]
        intro a ha hpa
        exact hhd a ha ⟨hp, hpa⟩
      simp [List.filter_cons, hp, hnil]
    · simpa [List.filter_cons, hp] using ih htl

/-- The intervals of `grade_scale` are pairwise disjoint: each pair is
separated on the number line. -/
theorem grade_scale_pairwise_separated :
    grade_scale.Pairwise (fun b1 b2 => b1.2.2 < b2.2.1 ∨ b2.2.2 < b1.2.1) := by
  unfold grade_scale
  norm_num [List.pairwise_cons]

/-- No score lies in two buckets of `grade_scale`. -/
theorem bucket_count_le_one (score : ℚ) : bucket_count score ≤ 1 := by
  apply length_filter_le_one_of_pairwise
  refine grade_scale_pairwise_separated.imp ?_
  intro a b hab hmem
  rcases hmem with ⟨ha, hb⟩
  simp only [in_bucket, Bool.and_eq_true, decide_eq_true_eq] at ha hb
  rcases hab with h | h <;> linarith [ha.1, ha.2, hb.1, hb.2]

/-- The strict chain resolves every grade to one of 13 literal
letters. -/
theorem get_letter_grade_eq_cases (g : ℚ) :
    get_letter_grade g = "A+" ∨ get_letter_grade g = "A" ∨
    get_letter_grade g = "A-" ∨ get_letter_grade g = "B+" ∨
    get_letter_grade g = "B" ∨ get_letter_grade g = "B-" ∨
    get_letter_grade g = "C+" ∨ get_letter_grade g = "C" ∨
    get_letter_grade g = "C-" ∨ get_letter_grade g = "D+" ∨
    get_letter_grade g = "D" ∨ get_letter_grade g = "D-" ∨
    get_letter_grade g = "F" := by
  unfold get_letter_grade
  by_cases h1 : g ≥ 97
  · simp [h1]
  by_cases h2 : g ≥ 93
  · simp [h1, h2]
  by_cases h3 : g ≥ 90
  · simp [h1, h2, h3]
  by_cases h4 : g ≥ 87
  · simp [h1, h2, h3, h4]
  by_cases h5 : g ≥ 83
  · simp [h1, h2, h3, h4, h5]
  by_cases h6 : g ≥ 80
  · simp [h1, h2, h3, h4, h5, h6]
  by_cases h7 : g ≥ 77
  · simp [h1, h2, h3, h4, h5, h6, h7]
  by_cases h8 : g ≥ 73
  · simp [h1, h2, h3, h4, h5, h6, h7, h8]
  by_cases h9 : g ≥ 70
  · simp [h1, h2, h3, h4, h5, h6, h7, h8, h9]
  by_cases h10 : g ≥ 67
  · simp [h1, h2, h3, h4, h5, h6, h7, h8, h9, h10]
  by_cases h11 : g ≥ 63
  · simp [h1, h2, h3, h4, h5, h6, h7, h8, h9, h10, h11]
  by_cases h12 : g ≥ 60
  · simp [h1, h2, h3, h4, h5, h6, h7, h8, h9, h10, h11, h12]
  simp [h1, h2, h3, h4, h5, h6, h7, h8, h9, h10, h11, h12]

/-- The strict chain always produces one of the 13 letters. -/
theorem get_letter_grade_mem (g : ℚ) : get_letter_grade g ∈ letter_grades := by
  rcases get_letter_grade_eq_cases g with h|h|h|h|h|h|h|h|h|h|h|h|h <;>
    rw [h] <;> decide

/-- The interval-table converter always produces one of the 13 letters,
via the fallback when no bucket matches. -/
theorem numeric_to_letter_grade_mem (score : ℚ) :
    numeric_to_letter_grade score ∈ letter_grades := by
  unfold numeric_to_letter_grade
  cases h : grade_scale.find? (fun b => in_bucket b score) with
  | none => decide
  | some b =>
    have hb : b ∈ grade_scale := List.mem_of_find?_eq_some h
    fin_cases hb <;> decide

/-- The score 94.95 satisfies no bucket of `grade_scale`. -/
theorem no_bucket_at_gap :
    ∀ b ∈ grade_scale, ¬(in_bucket b (1899/20) = true) := by
  intro b hb
  fin_cases hb <;>
    simp only [in_bucket, Bool.and_eq_true, decide_eq_true_eq] <;>
    rintro ⟨h1, h2⟩ <;> norm_num at h1 h2

/-- C5 counterexample: the score 94.95 lies in [0, 100] yet belongs to
no bucket of the loose interval table (the gap between A's upper bound
94.9 and A+'s lower bound 95), so it is not mapped to exactly one of
the 13 buckets; the converter falls back to "F". -/
theorem grade_scale_gap_counterexample :
    (0:ℚ) ≤ 1899/20 ∧ (1899/20:ℚ) ≤ 100 ∧ bucket_count (1899/20) = 0 ∧
      numeric_to_letter_grade (1899/20) = "F" := by
  have hnil : grade_scale.filter (fun b => in_bucket b (1899/20)) = [] := by
    rw [List.filter_eq_nil_iff]
    exact no_bucket_at_gap
  have hnone : grade_scale.find? (fun b => in_bucket b (1899/20)) = none :=
    List.find?_eq_none.mpr no_bucket_at_gap
  refine ⟨by norm_num, by norm_num, ?_, ?_⟩
  · rw [bucket_count, hnil]
    rfl
  · rw [numeric_to_letter_grade, hnone]

/-- C5 amended: the strict threshold table (A+ at ≥ 97) maps every
grade in [0, 100] to exactly one of the 13 letters; the loose interval
table (A+ from 95) is non-overlapping (no grade lies in two buckets)
but not total: its gaps of width 0.1, such as (94.9, 95), match no
bucket and the conversion function falls back to "F" there. -/
theorem letter_tables_strict_total_loose_disjoint (g : ℚ)
    (h0 : 0 ≤ g) (h1 : g ≤ 100) :
    get_letter_grade g ∈ letter_grades ∧
      numeric_to_letter_grade g ∈ letter_grades ∧
      bucket_count g ≤ 1 :=
  ⟨get_letter_grade_mem g, numeric_to_letter_grade_mem g, bucket_count_le_one g⟩

/-- Witness for C5 at the grade 88. -/
theorem letter_tables_witness :
    (0:ℚ) ≤ 88 ∧ (88:ℚ) ≤ 100 ∧
      (get_letter_grade 88 ∈ letter_grades ∧
        numeric_to_letter_grade 88 ∈ letter_grades ∧
        bucket_count 88 ≤ 1) :=
  ⟨by norm_num, by norm_num,
    letter_tables_strict_total_loose_disjoint 88 (by norm_num) (by norm_num)⟩

/-! ### O-Line unit grading (functions/players/grading.py) -/

/-- Embeds the pass-protection base component of
`_calculate_realistic_pass_pro_grade` (players/grading.py lines
654-665), the 4-tier piecewise function of `pass_pro_rate`. -/
def pass_pro_base_grade (pass_pro_rate : ℚ) : ℚ :=
  if pass_pro_rate ≥ 3/4 then 85 + min 10 ((pass_pro_rate - 3/4) * 40)
  else if pass_pro_rate ≥ 7/10 then 75 + (pass_pro_rate - 7/10) * 20
  else if pass_pro_rate ≥ 13/20 then 65 + (pass_pro_rate - 13/20) * 20
  else 45 + pass_pro_rate * 30

/-- Embeds the pressure-rate bonus of
`_calculate_realistic_pass_pro_grade` (players/grading.py lines
668-674). -/
def pass_pro_pressure_bonus (pressure_rate : ℚ) : ℚ :=
  if pressure_rate ≤ 1/4 then 5
  else if pressure_rate ≤ 7/20 then 0
  else -((pressure_rate - 7/20) * 40)

/-- Embeds the sacks-allowed bonus of
`_calculate_realistic_pass_pro_grade` (players/grading.py lines
677-685). -/
def pass_pro_sack_bonus (sacks : ℚ) : ℚ :=
  if sacks = 0 then 3
  else if sacks ≤ 1 then 1
  else if sacks ≤ 2 then 0
  else -((sacks - 2) * 4)

/-- Embeds `_calculate_realistic_pass_pro_grade` (players/grading.py
lines 652-688): base plus bonuses, capped to [35, 95]. -/
def calculate_realistic_pass_pro_grade
    (pass_pro_rate pressure_rate sacks : ℚ) : ℚ :=
  max (min (pass_pro_base_grade pass_pro_rate +
      pass_pro_pressure_bonus pressure_rate +
      pass_pro_sack_bonus sacks) 95) 35

/-- C7 counterexample: a team-week with pass_pro_rate = 0.80 whose
pressure rate is 0.10 (elite, +5) and which allowed 0 sacks (+3) is
graded 95, not 87 — the claimed value 87 is only the base component. -/
theorem pass_pro_grade_counterexample :
    calculate_realistic_pass_pro_grade (4/5) (1/10) 0 = 95 ∧ (95:ℚ) ≠ 87 := by
  constructor
  · unfold calculate_realistic_pass_pro_grade pass_pro_base_grade
      pass_pro_pressure_bonus pass_pro_sack_bonus
    norm_num [min_def, max_def]
  · norm_num

/-- C7 amended: for a graded team-week with pass_pro_rate = 0.80 the
pass-protection *base component* equals 85 + min(10, (0.80-0.75)·40) =
87; the final pass-protection grade adds a pressure-rate bonus and a
sacks-allowed bonus before clamping to [35, 95], so it equals 87
exactly when those bonuses cancel, e.g. whenever
0.25 < pressure_rate ≤ 0.35 and sacks_allowed = 2. -/
theorem pass_pro_grade_at_080 (pressure_rate : ℚ)
    (hlo : 1/4 < pressure_rate) (hhi : pressure_rate ≤ 7/20) :
    pass_pro_base_grade (4/5) = 87 ∧
      calculate_realistic_pass_pro_grade (4/5) pressure_rate 2 = 87 := by
  have hbase : pass_pro_base_grade (4/5) = 87 := by
    unfold pass_pro_base_grade
    norm_num [min_def]
  refine ⟨hbase, ?_⟩
  have hpb : pass_pro_pressure_bonus pressure_rate = 0 := by
    unfold pass_pro_pressure_bonus
    rw [if_neg (by linarith), if_pos hhi]
  have hsb : pass_pro_sack_bonus 2 = 0 := by
    unfold pass_pro_sack_bonus
    norm_num
  unfold calculate_realistic_pass_pro_grade
  rw [hbase, hpb, hsb]
  norm_num [min_def, max_def]

/-- Witness for C7 at pressure rate 0.30. -/
theorem pass_pro_grade_at_080_witness :
    (1/4 : ℚ) < 3/10 ∧ (3/10 : ℚ) ≤ 7/20 ∧
      (pass_pro_base_grade (4/5) = 87 ∧
        calculate_realistic_pass_pro_grade (4/5) (3/10) 2 = 87) :=
  ⟨by norm_num, by norm_num,
    pass_pro_grade_at_080 (3/10) (by norm_num) (by norm_num)⟩

/-- Embeds `_calculate_realistic_oline_adjustment` (players/grading.py
lines 980-995); a missing O-Line grade (NaN in the source) is modelled
as `none`. -/
def calculate_realistic_oline_adjustment
    (oline_grade : Option ℚ) (position : String) : ℚ :=
  match oline_grade with
  | none => 1
  | some g =>
    if g ≥ 85 then (if position = "RB" then 108/100 else 106/100)
    else if g ≥ 75 then (if position = "RB" then 105/100 else 103/100)
    else if g ≥ 65 then 1
    else if g ≥ 55 then (if position = "RB" then 95/100 else 97/100)
    else (if position = "RB" then 90/100 else 93/100)

/-- C9: the O-Line adjustment multiplier always is one of the nine
fixed values {0.90, 0.93, 0.95, 0.97, 1.0, 1.03, 1.05, 1.06, 1.08},
lies in [0.90, 1.08], equals exactly 1 for a missing (NaN) grade, and
therefore moves a nonnegative base grade by at most 10% of its value
before final clamping. -/
theorem oline_adjustment_bounded (oline_grade : Option ℚ)
    (position : String) (base : ℚ) (hbase : 0 ≤ base) :
    (calculate_realistic_oline_adjustment oline_grade position = 90/100 ∨
      calculate_realistic_oline_adjustment oline_grade position = 93/100 ∨
      calculate_realistic_oline_adjustment oline_grade position = 95/100 ∨
      calculate_realistic_oline_adjustment oline_grade position = 97/100 ∨
      calculate_realistic_oline_adjustment oline_grade position = 1 ∨
      calculate_realistic_oline_adjustment oline_grade position = 103/100 ∨
      calculate_realistic_oline_adjustment oline_grade position = 105/100 ∨
      calculate_realistic_oline_adjustment oline_grade position = 106/100 ∨
      calculate_realistic_oline_adjustment oline_grade position = 108/100) ∧
    (90/100 ≤ calculate_realistic_oline_adjustment oline_grade position ∧
      calculate_realistic_oline_adjustment oline_grade position ≤ 108/100) ∧
    calculate_realistic_oline_adjustment none position = 1 ∧
    |base * calculate_realistic_oline_adjustment oline_grade position - base|
      ≤ base / 10 := by
  have hset : calculate_realistic_oline_adjustment oline_grade position = 90/100 ∨
      calculate_realistic_oline_adjustment oline_grade position = 93/100 ∨
      calculate_realistic_oline_adjustment oline_grade position = 95/100 ∨
      calculate_realistic_oline_adjustment oline_grade position = 97/100 ∨
      calculate_realistic_oline_adjustment oline_grade position = 1 ∨
      calculate_realistic_oline_adjustment oline_grade position = 103/100 ∨
      calculate_realistic_oline_adjustment oline_grade position = 105/100 ∨
      calculate_realistic_oline_adjustment oline_grade position = 106/100 ∨
      calculate_realistic_oline_adjustment oline_grade position = 108/100 := by
    cases oline_grade with
    | none => simp [calculate_realistic_oline_adjustment]
    | some g =>
      simp only [calculate_realistic_oline_adjustment]
      split_ifs <;> tauto
  have hrange : 90/100 ≤ calculate_realistic_oline_adjustment oline_grade position ∧
      calculate_realistic_oline_adjustment oline_grade position ≤ 108/100 := by
    rcases hset with h|h|h|h|h|h|h|h|h <;> rw [h] <;> norm_num
  refine ⟨hset, hrange, rfl, ?_⟩
  rw [abs_le]
  constructor <;> nlinarith [hrange.1, hrange.2]

/-- Witness for C9 at a good O-Line (grade 80) for a QB with base
grade 50. -/
theorem oline_adjustment_bounded_witness :
    (0:ℚ) ≤ 50 ∧
      ((calculate_realistic_oline_adjustment (some 80) "QB" = 90/100 ∨
        calculate_realistic_oline_adjustment (some 80) "QB" = 93/100 ∨
        calculate_realistic_oline_adjustment (some 80) "QB" = 95/100 ∨
        calculate_realistic_oline_adjustment (some 80) "QB" = 97/100 ∨
        calculate_realistic_oline_adjustment (some 80) "QB" = 1 ∨
        calculate_realistic_oline_adjustment (some 80) "QB" = 103/100 ∨
        calculate_realistic_oline_adjustment (some 80) "QB" = 105/100 ∨
        calculate_realistic_oline_adjustment (some 80) "QB" = 106/100 ∨
        calculate_realistic_oline_adjustment (some 80) "QB" = 108/100) ∧
      (90/100 ≤ calculate_realistic_oline_adjustment (some 80) "QB" ∧
        calculate_realistic_oline_adjustment (some 80) "QB" ≤ 108/100) ∧
      calculate_realistic_oline_adjustment none "QB" = 1 ∧
      |50 * calculate_realistic_oline_adjustment (some 80) "QB" - 50|
        ≤ 50 / 10) :=
  ⟨by norm_num, oline_adjustment_bounded (some 80) "QB" 50 (by norm_num)⟩

/-! ### Coach records from schedule data (coach_grading.py) -/

/-- Embeds the per-game result expression of `extract_coaching_info`
(coach_grading.py lines 97 and 119, identically coaching/grading.py
lines 163 and 185): "W" when both scores are present and the team
outscored the opponent, "L" when both scores are present otherwise
(including ties), and missing when either score is absent. -/
def game_result (score opp_score : Option ℚ) : Option String :=
  match score, opp_score with
  | some s, some o => if s > o then some "W" else some "L"
  | _, _ => none

/-- Embeds the win count of `_get_team_record` (coach_grading.py line
558): completed games with result "W". -/
def wins (games : List (Option ℚ × Option ℚ)) : ℕ :=
  games.countP (fun gm => game_result gm.1 gm.2 == some "W")

/-- Embeds the completed-game count of `_get_team_record`
(coach_grading.py line 559): games whose result is not missing. -/
def total_games (games : List (Option ℚ × Option ℚ)) : ℕ :=
  games.countP (fun gm => (game_result gm.1 gm.2).isSome)

/-- Embeds the loss count of `_get_team_record` (coach_grading.py line
561): completed games minus wins. -/
def losses (games : List (Option ℚ × Option ℚ)) : ℕ :=
  total_games games - wins games

/-- C8: a completed game with equal scores is recorded as a loss "L"
(there is no distinct tie value, and the result is missing only when a
score is missing), and consequently counted wins plus counted losses
equal the number of games in which both scores are present. -/
theorem tie_is_loss_and_wins_losses_partition :
    (∀ s : ℚ, game_result (some s) (some s) = some "L") ∧
    ∀ games : List (Option ℚ × Option ℚ),
      wins games + losses games =
        games.countP (fun gm => gm.1.isSome && gm.2.isSome) := by
  constructor
  · intro s
    simp [game_result]
  · intro games
    have hmono : wins games ≤ total_games games := by
      apply List.countP_mono_left
      intro gm _ h
      rw [beq_iff_eq] at h
      rw [h]
      rfl
    have htot : total_games games =
        games.countP (fun gm => gm.1.isSome && gm.2.isSome) := by
      apply List.countP_congr
      intro gm _
      rcases gm with ⟨s, o⟩
      cases s <;> cases o <;> simp [game_result] <;> split <;> simp
    rw [losses, htot.symm]
    omega

/-! ### Defensive event aggregation (functions/players/grading.py)

`_aggregate_weekly_sacks` and `_aggregate_weekly_tackles` emit one
stat row per named participant slot of each play; the groupby on
(player, week, season) then sums the rows of each player.  A play is
modelled by its sack flag and its named participant slots. -/

/-- One play event of a week, restricted to the fields the sack and
tackle aggregators read. -/
structure PlayEvent where
  sack : Bool
  sack_player : Option String
  half_sack_1_player : Option String
  half_sack_2_player : Option String
  solo_tackle_1_player : Option String
  assist_tackle_1_player : Option String
  assist_tackle_2_player : Option String

/-- Rows of the full-sack loop of `_aggregate_weekly_sacks`
(players/grading.py lines 1076-1087): credit 1.0 per play with the
sack flag and a named sack player. -/
def full_sack_rows (week_data : List PlayEvent) : List (String × ℚ) :=
  week_data.filterMap (fun play =>
    if play.sack then play.sack_player.map (fun q => (q, (1:ℚ))) else none)

/-- Rows the half-sack loop of `_aggregate_weekly_sacks`
(players/grading.py lines 1090-1111) emits for one play: credit 0.5
per named half-sack slot on a play with the sack flag. -/
def half_sack_rows_of_play (play : PlayEvent) : List (String × ℚ) :=
  if play.sack then
    (match play.half_sack_1_player with
      | some q => [(q, (1:ℚ)/2)]
      | none => []) ++
    (match play.half_sack_2_player with
      | some q => [(q, (1:ℚ)/2)]
      | none => [])
  else []

/-- All rows of the half-sack loop over a week. -/
def half_sack_rows (week_data : List PlayEvent) : List (String × ℚ) :=
  (week_data.map half_sack_rows_of_play).flatten

/-- All rows of `_aggregate_weekly_sacks`: full-sack rows then
half-sack rows. -/
def sack_rows (week_data : List PlayEvent) : List (String × ℚ) :=
  full_sack_rows week_data ++ half_sack_rows week_data

/-- The groupby-sum of `_create_defensive_weekly_stats`
(players/grading.py lines 1053-1062) for one player key: the sum of
the credits of that player's rows. -/
def player_total (p : String) (rows : List (String × ℚ)) : ℚ :=
  ((rows.filter (fun r => r.1 == p)).map Prod.snd).sum

/-- A player's aggregated weekly sack total. -/
def weekly_sacks (p : String) (week_data : List PlayEvent) : ℚ :=
  player_total p (sack_rows week_data)

/-- Rows of the solo-tackle loop of `_aggregate_weekly_tackles`
(players/grading.py lines 1120-1130): credit 1 per play with a named
first solo tackler. -/
def solo_tackle_rows (week_data : List PlayEvent) : List (String × ℚ) :=
  week_data.filterMap (fun play =>
    play.solo_tackle_1_player.map (fun q => (q, (1:ℚ))))

/-- Rows the assist-tackle loop of `_aggregate_weekly_tackles`
(players/grading.py lines 1133-1153) emits for one play: credit 1 per
named assist slot (two slots). -/
def assist_tackle_rows_of_play (play : PlayEvent) : List (String × ℚ) :=
  (match play.assist_tackle_1_player with
    | some q => [(q, (1:ℚ))]
    | none => []) ++
  (match play.assist_tackle_2_player with
    | some q => [(q, (1:ℚ))]
    | none => [])

/-- All rows of the assist-tackle loop over a week. -/
def assist_tackle_rows (week_data : List PlayEvent) : List (String × ℚ) :=
  (week_data.map assist_tackle_rows_of_play).flatten

/-- A player's aggregated weekly solo-tackle total. -/
def weekly_solo_tackles (p : String) (week_data : List PlayEvent) : ℚ :=
  player_total p (solo_tackle_rows week_data)

/-- A player's aggregated weekly assist-tackle total. -/
def weekly_assist_tackles (p : String) (week_data : List PlayEvent) : ℚ :=
  player_total p (assist_tackle_rows week_data)

/-- Embeds `total_tackles = solo_tackles + assist_tackles`
(players/grading.py line 1065). -/
def weekly_total_tackles (p : String) (week_data : List PlayEvent) : ℚ :=
  weekly_solo_tackles p week_data + weekly_assist_tackles p week_data

/-- Number of plays crediting the player as the full sacker. -/
def full_sack_count (p : String) (week_data : List PlayEvent) : ℕ :=
  ((full_sack_rows week_data).filter (fun r => r.1 == p)).length

/-- Number of half-sack slots crediting the player. -/
def half_sack_count (p : String) (week_data : List PlayEvent) : ℕ :=
  ((half_sack_rows week_data).filter (fun r => r.1 == p)).length

/-- Number of plays crediting the player with a solo tackle. -/
def solo_tackle_count (p : String) (week_data : List PlayEvent) : ℕ :=
  ((solo_tackle_rows week_data).filter (fun r => r.1 == p)).length

/-- Number of assist slots crediting the player. -/
def assist_tackle_count (p : String) (week_data : List PlayEvent) : ℕ :=
  ((assist_tackle_rows week_data).filter (fun r => r.1 == p)).length

/-- Summing rows that all carry the same credit yields that credit
times the number of matching rows. -/
theorem player_total_const (p : String) (c : ℚ)
    (rows : List (String × ℚ)) (h : ∀ r ∈ rows, r.2 = c) :
    player_total p rows =
      c * ((rows.filter (fun r => r.1 == p)).length : ℚ) := by
  induction rows with
  | nil => simp [player_total]
  | cons hd tl ih =>
    have hhd : hd.2 = c := h hd (List.mem_cons_self hd tl)
    have htl : ∀ r ∈ tl, r.2 = c := fun r hr => h r (List.mem_cons_of_mem _ hr)
    have ih2 := ih htl
    by_cases hp : (hd.1 == p) = true
    · simp only [player_total, List.filter_cons, hp, if_true, List.map_cons,
        List.sum_cons, List.length_cons] at *
      rw [hhd, ih2]
      push_cast
      ring
    · simp only [player_total, List.filter_cons, hp, if_false,
        Bool.false_eq_true] at *
      exact ih2

/-- `player_total` distributes over row-list concatenation. -/
theorem player_total_append (p : String) (a b : List (String × ℚ)) :
    player_total p (a ++ b) = player_total p a + player_total p b := by
  simp [player_total, List.filter_append]

/-- Every full-sack row carries credit 1. -/
theorem full_sack_rows_credit (week_data : List PlayEvent) :
    ∀ r ∈ full_sack_rows week_data, r.2 = 1 := by
  intro r hr
  rw [full_sack_rows, List.mem_filterMap] at hr
  obtain ⟨play, _, hplay⟩ := hr
  by_cases hs : play.sack
  · rw [if_pos hs, Option.map_eq_some'] at hplay
    obtain ⟨q, _, heq⟩ := hplay
    rw [← heq]
  · rw [if_neg hs] at hplay
    exact absurd hplay (Option.noConfusion)

/-- Every half-sack row carries credit 1/2. -/
theorem half_sack_rows_credit (week_data : List PlayEvent) :
    ∀ r ∈ half_sack_rows week_data, r.2 = 1/2 := by
  intro r hr
  rw [half_sack_rows, List.mem_flatten] at hr
  obtain ⟨l, hl, hrl⟩ := hr
  rw [List.mem_map] at hl
  obtain ⟨play, _, rfl⟩ := hl
  rw [half_sack_rows_of_play] at hrl
  by_cases hs : play.sack
  · rw [if_pos hs, List.mem_append] at hrl
    rcases hrl with hrl | hrl <;>
      [cases h1 : play.half_sack_1_player; cases h1 : play.half_sack_2_player] <;>
      simp [h1] at hrl <;> simp [hrl]
  · rw [if_neg hs] at hrl
    exact absurd hrl (List.not_mem_nil r)

/-- Every solo-tackle row carries credit 1. -/
theorem solo_tackle_rows_credit (week_data : List PlayEvent) :
    ∀ r ∈ solo_tackle_rows week_data, r.2 = 1 := by
  intro r hr
  rw [solo_tackle_rows, List.mem_filterMap] at hr
  obtain ⟨play, _, hplay⟩ := hr
  rw [Option.map_eq_some'] at hplay
  obtain ⟨q, _, heq⟩ := hplay
  rw [← heq]

/-- Every assist-tackle row carries credit 1. -/
theorem assist_tackle_rows_credit (week_data : List PlayEvent) :
    ∀ r ∈ assist_tackle_rows week_data, r.2 = 1 := by
  intro r hr
  rw [assist_tackle_rows, List.mem_flatten] at hr
  obtain ⟨l, hl, hrl⟩ := hr
  rw [List.mem_map] at hl
  obtain ⟨play, _, rfl⟩ := hl
  rw [assist_tackle_rows_of_play, List.mem_append] at hrl
  rcases hrl with hrl | hrl <;>
    [cases h1 : play.assist_tackle_1_player; cases h1 : play.assist_tackle_2_player] <;>
    simp [h1] at hrl <;> simp [hrl]

/-- The weekly sack total is one point per full sack plus half a point
per half-sack slot. -/
theorem weekly_sacks_eq_counts (p : String) (week_data : List PlayEvent) :
    weekly_sacks p week_data =
      (full_sack_count p week_data : ℚ) +
        (1/2) * (half_sack_count p week_data : ℚ) := by
  rw [weekly_sacks, sack_rows, player_total_append,
    player_total_const p 1 _ (full_sack_rows_credit week_data),
    player_total_const p (1/2) _ (half_sack_rows_credit week_data),
    full_sack_count, half_sack_count]
  ring

/-- The weekly solo-tackle total counts solo-tackle rows. -/
theorem weekly_solo_tackles_eq_count (p : String) (week_data : List PlayEvent) :
    weekly_solo_tackles p week_data = (solo_tackle_count p week_data : ℚ) := by
  rw [weekly_solo_tackles,
    player_total_const p 1 _ (solo_tackle_rows_credit week_data),
    solo_tackle_count, one_mul]

/-- The weekly assist-tackle total counts assist slots at full value. -/
theorem weekly_assist_tackles_eq_count (p : String) (week_data : List PlayEvent) :
    weekly_assist_tackles p week_data = (assist_tackle_count p week_data : ℚ) := by
  rw [weekly_assist_tackles,
    player_total_const p 1 _ (assist_tackle_rows_credit week_data),
    assist_tackle_count, one_mul]

/-- A play crediting player "TCK" with one assist tackle and nothing
else. -/
def assist_only_play : PlayEvent :=
  ⟨false, none, none, none, none, some "TCK", none⟩

/-- C3 counterexample: a week holding a single play on which player
"TCK" fills one assist-tackle slot yields an assist-tackle total of 1
(the aggregator credits each assist slot with 1, not 0.5), and the
total-tackle count is 1, not solo + 0.5·assists = 0.5. -/
theorem assist_credit_counterexample :
    weekly_assist_tackles "TCK" [assist_only_play] = 1 ∧
      weekly_total_tackles "TCK" [assist_only_play] = 1 ∧
      weekly_total_tackles "TCK" [assist_only_play] ≠
        weekly_solo_tackles "TCK" [assist_only_play] +
          (1/2) * (assist_tackle_count "TCK" [assist_only_play] : ℚ) := by
  have ha : weekly_assist_tackles "TCK" [assist_only_play] = 1 := by
    norm_num [weekly_assist_tackles, player_total, assist_tackle_rows,
      assist_tackle_rows_of_play, assist_only_play, List.filter]
  have hs : weekly_solo_tackles "TCK" [assist_only_play] = 0 := by
    norm_num [weekly_solo_tackles, player_total, solo_tackle_rows,
      assist_only_play, List.filter]
  have hc : assist_tackle_count "TCK" [assist_only_play] = 1 := by
    norm_num [assist_tackle_count, assist_tackle_rows,
      assist_tackle_rows_of_play, assist_only_play, List.filter]
  refine ⟨ha, ?_, ?_⟩
  · rw [weekly_total_tackles, ha, hs]
    norm_num
  · rw [weekly_total_tackles, ha, hs, hc]
    norm_num

/-- C3 amended: per play the aggregator credits a full sack with 1.0,
each named half-sack slot with 0.5, a named solo tackle with 1, and
each of the up-to-two named assist slots with 1 (not 0.5); a player's
weekly total_tackles therefore equals solo tackles plus assist
tackles at full value. -/
theorem defensive_tally_characterization (p : String)
    (week_data : List PlayEvent) :
    weekly_sacks p week_data =
        (full_sack_count p week_data : ℚ) +
          (1/2) * (half_sack_count p week_data : ℚ) ∧
      weekly_solo_tackles p week_data = (solo_tackle_count p week_data : ℚ) ∧
      weekly_assist_tackles p week_data =
        (assist_tackle_count p week_data : ℚ) ∧
      weekly_total_tackles p week_data =
        (solo_tackle_count p week_data : ℚ) +
          (assist_tackle_count p week_data : ℚ) := by
  refine ⟨weekly_sacks_eq_counts p week_data,
    weekly_solo_tackles_eq_count p week_data,
    weekly_assist_tackles_eq_count p week_data, ?_⟩
  rw [weekly_total_tackles, weekly_solo_tackles_eq_count,
    weekly_assist_tackles_eq_count]

/-- C4: a player credited with one full sack and two half-sack slots
across a week aggregates to exactly 2.0 sacks; every row enters the
(player, week, season) key once, so nothing is double-counted. -/
theorem one_full_two_half_sacks_total_two (p : String)
    (week_data : List PlayEvent)
    (hfull : full_sack_count p week_data = 1)
    (hhalf : half_sack_count p week_data = 2) :
    weekly_sacks p week_data = 2 := by
  rw [weekly_sacks_eq_counts, hfull, hhalf]
  norm_num

/-- A play crediting player "P" with a full sack. -/
def full_sack_play : PlayEvent :=
  ⟨true, some "P", none, none, none, none, none⟩

/-- A play crediting player "P" in the first half-sack slot. -/
def half_sack_play_1 : PlayEvent :=
  ⟨true, none, some "P", none, none, none, none⟩

/-- A play crediting player "P" in the second half-sack slot. -/
def half_sack_play_2 : PlayEvent :=
  ⟨true, none, none, some "P", none, none, none⟩

/-- Witness for C4: one full-sack play and two half-sack plays for
player "P" in one week total exactly 2.0 sacks. -/
theorem one_full_two_half_sacks_witness :
    full_sack_count "P" [full_sack_play, half_sack_play_1, half_sack_play_2] = 1 ∧
      half_sack_count "P" [full_sack_play, half_sack_play_1, half_sack_play_2] = 2 ∧
      weekly_sacks "P" [full_sack_play, half_sack_play_1, half_sack_play_2] = 2 := by
  have h1 : full_sack_count "P" [full_sack_play, half_sack_play_1, half_sack_play_2] = 1 := by
    norm_num [full_sack_count, full_sack_rows, full_sack_play,
      half_sack_play_1, half_sack_play_2, List.filter]
  have h2 : half_sack_count "P" [full_sack_play, half_sack_play_1, half_sack_play_2] = 2 := by
    norm_num [half_sack_count, half_sack_rows, half_sack_rows_of_play,
      full_sack_play, half_sack_play_1, half_sack_play_2, List.filter]
  exact ⟨h1, h2, one_full_two_half_sacks_total_two "P" _ h1 h2⟩

/-! ### JSON data cleaning (app/api/utils.py)

`clean_data_for_json` walks a Python value.  Machine floats are
modelled exactly as a finite rational, NaN, or a signed infinity;
NumPy scalars are tagged separately from native scalars since the code
branches on them; pandas Series and DataFrame cells are scalar
values. -/

/-- A Python/NumPy floating value: finite, NaN, or signed infinity. -/
inductive PyFloat where
  | finite (q : ℚ)
  | nan
  | inf (pos : Bool)
deriving DecidableEq

/-- A scalar value: Python None, int, float, NumPy integer or floating
scalar, or a string. -/
inductive PyScalar where
  | pynone
  | int (n : ℤ)
  | float (f : PyFloat)
  | npInt (n : ℤ)
  | npFloat (f : PyFloat)
  | str (s : String)
deriving DecidableEq

mutual
/-- A value reaching `clean_data_for_json`: a scalar, a NumPy float
array, a pandas Series or DataFrame over scalar cells, or a nested
list or string-keyed dict. -/
inductive PyVal where
  | scalar (s : PyScalar)
  | ndarray (xs : List PyFloat)
  | series (elems : List PyScalar)
  | dataFrame (records : List (List (String × PyScalar)))
  | vlist (items : PyValList)
  | vdict (entries : PyEntryList)
/-- A list of Python values. -/
inductive PyValList where
  | nil
  | cons (hd : PyVal) (tl : PyValList)
/-- String-keyed dict entries. -/
inductive PyEntryList where
  | enil
  | econs (k : String) (v : PyVal) (tl : PyEntryList)
end

/-- The test `np.isnan(value) or np.isinf(value)` of utils.py. -/
def isnan_or_isinf : PyFloat → Bool
  | .finite _ => false
  | .nan => true
  | .inf _ => true

/-- Embeds the DataFrame record-cell cleaning of `clean_data_for_json`
(utils.py lines 30-45): `pd.isna` values become None, NaN/infinite
floats become None, NumPy scalars become native values via `.item()`
with NaN/infinity becoming None, and other values stay unchanged. -/
def clean_record_value : PyScalar → PyScalar
  | .pynone => .pynone
  | .int n => .int n
  | .float .nan => .pynone
  | .float (.inf _) => .pynone
  | .float (.finite q) => .float (.finite q)
  | .npInt n => .int n
  | .npFloat .nan => .pynone
  | .npFloat (.inf _) => .pynone
  | .npFloat (.finite q) => .float (.finite q)
  | .str s => .str s

/-- Embeds the Series element cleaning of `clean_data_for_json`
(utils.py lines 60-67): the same missing-value and NumPy-scalar
handling as for record cells (NumPy float64 scalars are float
subclasses, so infinite ones are caught by the float clause). -/
def clean_series_value : PyScalar → PyScalar
  | .pynone => .pynone
  | .int n => .int n
  | .float .nan => .pynone
  | .float (.inf _) => .pynone
  | .float (.finite q) => .float (.finite q)
  | .npInt n => .int n
  | .npFloat .nan => .pynone
  | .npFloat (.inf _) => .pynone
  | .npFloat (.finite q) => .float (.finite q)
  | .str s => .str s

/-- Embeds the top-level scalar handling of `clean_data_for_json`
(utils.py lines 72-81): NumPy scalars to native values, NaN/infinite
floats and `pd.isna` values to None, anything else unchanged. -/
def clean_scalar_value : PyScalar → PyScalar
  | .pynone => .pynone
  | .int n => .int n
  | .float .nan => .pynone
  | .float (.inf _) => .pynone
  | .float (.finite q) => .float (.finite q)
  | .npInt n => .int n
  | .npFloat .nan => .pynone
  | .npFloat (.inf _) => .pynone
  | .npFloat (.finite q) => .float (.finite q)
  | .str s => .str s

/-- One cleaned DataFrame record as dict entries (utils.py lines
28-46). -/
def clean_record : List (String × PyScalar) → PyEntryList
  | [] => .enil
  | (k, c) :: rest => .econs k (.scalar (clean_record_value c)) (clean_record rest)

/-- Packs a Lean list of values as a `PyValList`. -/
def toPyValList : List PyVal → PyValList
  | [] => .nil
  | v :: vs => .cons v (toPyValList vs)

mutual
/-- Embeds `clean_data_for_json` (utils.py lines 13-94): dicts and
lists are cleaned recursively; a DataFrame becomes a list of cleaned
record dicts; a Series becomes a list of cleaned elements; a NumPy
array becomes a plain list of its floats via `tolist()`, with NaN and
infinities passed through unchanged; scalars are cleaned in place.
The function is total: every branch returns a value. -/
def clean_data_for_json : PyVal → PyVal
  | .vdict entries => .vdict (clean_dict_entries entries)
  | .vlist items => .vlist (clean_list_items items)
  | .dataFrame records =>
      .vlist (toPyValList (records.map (fun r => .vdict (clean_record r))))
  | .series elems =>
      .vlist (toPyValList (elems.map (fun c => .scalar (clean_series_value c))))
  | .ndarray xs =>
      .vlist (toPyValList (xs.map (fun f => .scalar (.float f))))
  | .scalar s => .scalar (clean_scalar_value s)
/-- List recursion of `clean_data_for_json` (utils.py line 19). -/
def clean_list_items : PyValList → PyValList
  | .nil => .nil
  | .cons hd tl => .cons (clean_data_for_json hd) (clean_list_items tl)
/-- Dict recursion of `clean_data_for_json` (utils.py line 17). -/
def clean_dict_entries : PyEntryList → PyEntryList
  | .enil => .enil
  | .econs k v tl => .econs k (clean_data_for_json v) (clean_dict_entries tl)
end

/-- True of a scalar holding a NaN or infinite float. -/
def scalar_has_nonfinite : PyScalar → Bool
  | .float f => isnan_or_isinf f
  | .npFloat f => isnan_or_isinf f
  | _ => false

mutual
/-- True of a value containing a NaN or infinite float anywhere. -/
def has_nonfinite : PyVal → Bool
  | .scalar s => scalar_has_nonfinite s
  | .ndarray xs => xs.any isnan_or_isinf
  | .series elems => elems.any scalar_has_nonfinite
  | .dataFrame records =>
      records.any (fun r => r.any (fun c => scalar_has_nonfinite c.2))
  | .vlist items => list_has_nonfinite items
  | .vdict entries => entries_has_nonfinite entries
/-- `has_nonfinite` over a value list. -/
def list_has_nonfinite : PyValList → Bool
  | .nil => false
  | .cons hd tl => has_nonfinite hd || list_has_nonfinite tl
/-- `has_nonfinite` over dict entries. -/
def entries_has_nonfinite : PyEntryList → Bool
  | .enil => false
  | .econs _ v tl => has_nonfinite v || entries_has_nonfinite tl
end

mutual
/-- True of a value containing no NumPy array anywhere. -/
def ndarray_free : PyVal → Bool
  | .scalar _ => true
  | .ndarray _ => false
  | .series _ => true
  | .dataFrame _ => true
  | .vlist items => list_ndarray_free items
  | .vdict entries => entries_ndarray_free entries
/-- `ndarray_free` over a value list. -/
def list_ndarray_free : PyValList → Bool
  | .nil => true
  | .cons hd tl => ndarray_free hd && list_ndarray_free tl
/-- `ndarray_free` over dict entries. -/
def entries_ndarray_free : PyEntryList → Bool
  | .enil => true
  | .econs _ v tl => ndarray_free v && entries_ndarray_free tl
end

/-- Cleaned record cells are finite. -/
theorem clean_record_value_finite (c : PyScalar) :
    scalar_has_nonfinite (clean_record_value c) = false := by
  cases c with
  | float f => cases f <;> rfl
  | npFloat f => cases f <;> rfl
  | _ => rfl

/-- Cleaned Series elements are finite. -/
theorem clean_series_value_finite (c : PyScalar) :
    scalar_has_nonfinite (clean_series_value c) = false := by
  cases c with
  | float f => cases f <;> rfl
  | npFloat f => cases f <;> rfl
  | _ => rfl

/-- Cleaned top-level scalars are finite. -/
theorem clean_scalar_value_finite (c : PyScalar) :
    scalar_has_nonfinite (clean_scalar_value c) = false := by
  cases c with
  | float f => cases f <;> rfl
  | npFloat f => cases f <;> rfl
  | _ => rfl

/-- Cleaned DataFrame records contain no nonfinite float. -/
theorem clean_record_finite (r : List (String × PyScalar)) :
    entries_has_nonfinite (clean_record r) = false := by
  induction r with
  | nil => rfl
  | cons hd tl ih =>
    rcases hd with ⟨k, c⟩
    simp [clean_record, entries_has_nonfinite, has_nonfinite,
      clean_record_value_finite, ih]

/-- `list_has_nonfinite` of a packed list is `any` of its members. -/
theorem list_has_nonfinite_toPyValList (l : List PyVal) :
    list_has_nonfinite (toPyValList l) = l.any has_nonfinite := by
  induction l with
  | nil => rfl
  | cons hd tl ih => simp [toPyValList, list_has_nonfinite, ih]

mutual
/-- Helper: cleaning an array-free value removes every NaN and
infinity. -/
theorem clean_no_nonfinite (v : PyVal) (h : ndarray_free v = true) :
    has_nonfinite (clean_data_for_json v) = false := by
  cases v with
  | scalar s =>
    simpa [clean_data_for_json, has_nonfinite] using clean_scalar_value_finite s
  | ndarray xs => simp [ndarray_free] at h
  | series elems =>
    simp only [clean_data_for_json, has_nonfinite,
      list_has_nonfinite_toPyValList, List.any_map, Function.comp]
    rw [List.any_eq_false]
    intro a ha
    rw [List.mem_map] at ha
    obtain ⟨c, _, rfl⟩ := ha
    simpa [has_nonfinite] using clean_series_value_finite c
  | dataFrame records =>
    simp only [clean_data_for_json, has_nonfinite,
      list_has_nonfinite_toPyValList, List.any_map, Function.comp]
    rw [List.any_eq_false]
    intro a ha
    rw [List.mem_map] at ha
    obtain ⟨r, _, rfl⟩ := ha
    simpa [has_nonfinite] using clean_record_finite r
  | vlist items =>
    have hil : list_ndarray_free items = true := by simpa [ndarray_free] using h
    simpa [clean_data_for_json, has_nonfinite] using
      clean_list_no_nonfinite items hil
  | vdict entries =>
    have hie : entries_ndarray_free entries = true := by
      simpa [ndarray_free] using h
    simpa [clean_data_for_json, has_nonfinite] using
      clean_entries_no_nonfinite entries hie
/-- Helper: list version of `clean_no_nonfinite`. -/
theorem clean_list_no_nonfinite (l : PyValList)
    (h : list_ndarray_free l = true) :
    list_has_nonfinite (clean_list_items l) = false := by
  cases l with
  | nil => rfl
  | cons hd tl =>
    rw [list_ndarray_free, Bool.and_eq_true] at h
    simp [clean_list_items, list_has_nonfinite,
      clean_no_nonfinite hd h.1, clean_list_no_nonfinite tl h.2]
/-- Helper: dict version of `clean_no_nonfinite`. -/
theorem clean_entries_no_nonfinite (l : PyEntryList)
    (h : entries_ndarray_free l = true) :
    entries_has_nonfinite (clean_dict_entries l) = false := by
  cases l with
  | enil => rfl
  | econs k v tl =>
    rw [entries_ndarray_free, Bool.and_eq_true] at h
    simp [clean_dict_entries, entries_has_nonfinite,
      clean_no_nonfinite v h.1, clean_entries_no_nonfinite tl h.2]
end

/-- C10 counterexample: a NumPy array holding a NaN is converted by
`tolist()` into a plain list that still holds the NaN — the NaN is
not replaced by None, so the output of `clean_data_for_json` contains
a NaN. -/
theorem clean_data_ndarray_nan_counterexample :
    clean_data_for_json (.ndarray [PyFloat.nan]) =
        .vlist (.cons (.scalar (.float .nan)) .nil) ∧
      has_nonfinite (clean_data_for_json (.ndarray [PyFloat.nan])) = true :=
  ⟨rfl, rfl⟩

/-- C10 amended: `clean_data_for_json` is total and replaces every
NaN or infinite float by None and every NumPy scalar by a native
value — in dicts, lists, DataFrames, Series, and plain or NumPy
scalars — except inside NumPy arrays, whose elements are passed
through `tolist()` unchanged: for every input containing no NumPy
array the output contains no NaN or infinity. -/
theorem clean_data_for_json_nonfinite_free (v : PyVal)
    (h : ndarray_free v = true) :
    has_nonfinite (clean_data_for_json v) = false :=
  clean_no_nonfinite v h

/-- Witness for C10 at a dict {"x": NaN, "y": [inf]}. -/
theorem clean_data_for_json_nonfinite_free_witness :
    ndarray_free
        (.vdict (.econs "x" (.scalar (.float .nan))
          (.econs "y" (.vlist (.cons (.scalar (.float (.inf true))) .nil))
            .enil))) = true ∧
      has_nonfinite (clean_data_for_json
        (.vdict (.econs "x" (.scalar (.float .nan))
          (.econs "y" (.vlist (.cons (.scalar (.float (.inf true))) .nil))
            .enil)))) = false :=
  ⟨rfl, clean_data_for_json_nonfinite_free _ rfl⟩

end NFLGrading
